import Mathlib

/-!
Verification development for the `supportticket` repository.

The repository is a two-stage support-ticket pipeline (routing, then a
category-specific solver) plus a metrics engine.  The definitions below are a
shallow embedding of the Python sources:

* `src/agents/router.py`   — `TicketCategory`, `UrgencyLevel`, `RoutingSlip`,
  `run_router`;
* `src/agents/solvers.py`  — `AssignedTeam`, the six solver output models;
* `src/agents/orchestrator.py` — `process_solver_output` (`_process_solver_output`),
  `route_to_solver`, the handler map;
* `src/main.py`            — `create_batches`, the per-ticket processing loop
  (`processTicket`, `runPipeline`), envelope construction;
* `src/agents/evaluation.py` — `calculate_metrics` and its LLM-as-judge pass.

Python dictionaries carrying a fixed key set are embedded as structures; a key
that may be absent or hold `None` becomes an `Option`.  Python floats are
embedded as `ℚ` (the metric arithmetic is exact on the values involved).
Exceptions raised by `calculate_metrics` are embedded with `Except PyError`:
`dict.get(k, d)` returns the stored value even when that value is `None`, so
`r.get("solver_output", {}).get("status")` raises `AttributeError` when the
envelope stores `None`; `statistics.mean []` raises `StatisticsError`.
The external inference service (pydantic-ai agents) is a black box and enters
as an oracle parameter.
-/

/-- `TicketCategory` enum, router.py lines 9-15. -/
inductive TicketCategory
  | BUGS
  | QUERY
  | REQUEST
  | SECURITY
  | CORRECTNESS
  | MISCELLANEOUS
deriving DecidableEq

/-- The `.value` of each `TicketCategory` member (router.py lines 10-15). -/
def TicketCategory.value : TicketCategory → String
  | .BUGS => "BUGS"
  | .QUERY => "QUERY"
  | .REQUEST => "REQUEST"
  | .SECURITY => "SECURITY"
  | .CORRECTNESS => "CORRECTNESS"
  | .MISCELLANEOUS => "MISCELLANEOUS"

/-- `UrgencyLevel` enum, router.py lines 17-20. -/
inductive UrgencyLevel
  | HIGH
  | MEDIUM
  | LOW
deriving DecidableEq

/-- The `.value` of each `UrgencyLevel` member (router.py lines 18-20). -/
def UrgencyLevel.value : UrgencyLevel → String
  | .HIGH => "High"
  | .MEDIUM => "Medium"
  | .LOW => "Low"

/-- `RoutingSlip` pydantic model, router.py lines 22-25. -/
structure RoutingSlip where
  category : TicketCategory
  urgency : UrgencyLevel
  summary : String
deriving DecidableEq

/-- `AssignedTeam` enum, solvers.py lines 164-172. -/
inductive AssignedTeam
  | FRONTEND
  | BACKEND
  | SECURITY
  | UI_UX
  | CUSTOMER_SUPPORT
  | DOCUMENTATION
  | GENERAL_TRIAGE
deriving DecidableEq

/-- The `.value` of each `AssignedTeam` member (solvers.py lines 166-172). -/
def AssignedTeam.value : AssignedTeam → String
  | .FRONTEND => "Frontend"
  | .BACKEND => "Backend"
  | .SECURITY => "Security"
  | .UI_UX => "UI/UX"
  | .CUSTOMER_SUPPORT => "Customer Support"
  | .DOCUMENTATION => "Documentation"
  | .GENERAL_TRIAGE => "General Triage"

/-- `BugReport` solver output model, solvers.py lines 176-182. -/
structure BugReport where
  title : String
  reproduction_steps : List String
  severity : String
  assigned_team : AssignedTeam
deriving DecidableEq

/-- `DraftResponse` solver output model, solvers.py lines 184-189. -/
structure DraftResponse where
  customer_facing_response : String
  is_resolved : Bool
  assigned_team : AssignedTeam
deriving DecidableEq

/-- `FeatureRequestReport` solver output model, solvers.py lines 191-197. -/
structure FeatureRequestReport where
  feature_summary : String
  user_goal : String
  business_impact : String
  assigned_team : AssignedTeam
deriving DecidableEq

/-- `SecurityAlert` solver output model, solvers.py lines 199-205. -/
structure SecurityAlert where
  alert_summary : String
  severity : String
  recommended_action : String
  assigned_team : AssignedTeam
deriving DecidableEq

/-- `CorrectnessReview` solver output model, solvers.py lines 207-212. -/
structure CorrectnessReview where
  identified_error : String
  suggested_correction : String
  assigned_team : AssignedTeam
deriving DecidableEq

/-- `GeneralTriage` solver output model, solvers.py lines 214-218. -/
structure GeneralTriage where
  triage_summary : String
  recommended_next_step : String
  assigned_team : AssignedTeam
deriving DecidableEq

/-- The closed sum of the six solver output models (solvers.py): any value the
solving stage can produce on success. -/
inductive SolverResultObj
  | bug (b : BugReport)
  | draft (d : DraftResponse)
  | feature (f : FeatureRequestReport)
  | security (s : SecurityAlert)
  | correctness (c : CorrectnessReview)
  | triage (t : GeneralTriage)
deriving DecidableEq

/-- The `assigned_team` field mandated by every solver output model. -/
def SolverResultObj.assigned_team : SolverResultObj → AssignedTeam
  | .bug b => b.assigned_team
  | .draft d => d.assigned_team
  | .feature f => f.assigned_team
  | .security s => s.assigned_team
  | .correctness c => c.assigned_team
  | .triage t => t.assigned_team

/-- A ticket record loaded from the input file (main.py; field names as read by
router.py lines 66-73 and main.py lines 48-51).  `none` embeds an absent key. -/
structure Ticket where
  ticket_id : Option String
  customer_tier : Option String
  subject : Option String
  message : Option String
  previous_tickets : Option Int
  monthly_revenue : Option Int
  account_age_days : Option Int
  ground_truth_category : Option String
  ground_truth_urgency : Option String
  ground_truth_team : Option String
deriving DecidableEq

/-- main.py lines 48-51: `ticket.copy()` followed by popping the three
ground-truth keys — the sanitized copy handed to routing and solving. -/
def sanitize (t : Ticket) : Ticket :=
  { t with
    ground_truth_category := none
    ground_truth_urgency := none
    ground_truth_team := none }

/-- The `data` entry of a solver output dict (orchestrator.py lines 103-108):
a dumped model on success, the plain reason string on failure. -/
inductive SolverData
  | obj (d : SolverResultObj)
  | msg (s : String)
deriving DecidableEq

/-- The dict produced by `_process_solver_output` (orchestrator.py lines 103-108). -/
structure SolverOutput where
  status : String
  solver : String
  data : SolverData
deriving DecidableEq

/-- `_process_solver_output` (orchestrator.py lines 103-108): wrap a solver
result object, or the fixed failure reason when the solver returned `None`.
(A pydantic model instance is always truthy, so `if result_obj:` is a
`None` test.) -/
def process_solver_output (solver_name : String) (result_obj : Option SolverResultObj) :
    SolverOutput :=
  match result_obj with
  | some obj => { status := "SUCCESS", solver := solver_name, data := .obj obj }
  | none =>
    { status := "FAILURE", solver := solver_name,
      data := .msg "Could not generate valid structured output." }

/-- The solver name each handler passes to `_process_solver_output`
(orchestrator.py lines 110-147: the six `solve_*` functions and `_HANDLER_MAP`). -/
def solverName : TicketCategory → String
  | .BUGS => "BugSolver"
  | .QUERY => "QuerySolver"
  | .REQUEST => "FeatureRequestSolver"
  | .SECURITY => "SecuritySolver"
  | .CORRECTNESS => "CorrectnessSolver"
  | .MISCELLANEOUS => "MiscSolver"

/-- `route_to_solver` (orchestrator.py lines 149-154): look the category up in
`_HANDLER_MAP` (total over the enum; the `solve_misc_ticket` default is
unreachable) and run the matching handler, which delegates the inference call
(`_run_solver`, solvers.py lines 233-249, an external agent call embedded as
the oracle `solverSvc`) and wraps its result. -/
def route_to_solver (solverSvc : Ticket → RoutingSlip → Option SolverResultObj)
    (ticket : Ticket) (routing_slip : RoutingSlip) : SolverOutput :=
  process_solver_output (solverName routing_slip.category) (solverSvc ticket routing_slip)

/-- The raw content the inference service hands back for the `RoutingSlip`
schema before validation: three JSON string fields. -/
structure RawRoutingSlip where
  category : String
  urgency : String
  summary : String
deriving DecidableEq

/-- Outcome of the router's inference call (router.py lines 77-93): parsed
content, a 429, or any other exception. -/
inductive RouterServiceResponse
  | output (raw : RawRoutingSlip)
  | resourceExhausted
  | otherError (msg : String)
deriving DecidableEq

/-- Enum lookup by value for `TicketCategory` (pydantic resolves an enum-typed
field by matching the member values of router.py lines 10-15 exactly). -/
def TicketCategory.fromValue (s : String) : Option TicketCategory :=
  if s = "BUGS" then some .BUGS
  else if s = "QUERY" then some .QUERY
  else if s = "REQUEST" then some .REQUEST
  else if s = "SECURITY" then some .SECURITY
  else if s = "CORRECTNESS" then some .CORRECTNESS
  else if s = "MISCELLANEOUS" then some .MISCELLANEOUS
  else none

/-- Enum lookup by value for `UrgencyLevel` (router.py lines 18-20). -/
def UrgencyLevel.fromValue (s : String) : Option UrgencyLevel :=
  if s = "High" then some .HIGH
  else if s = "Medium" then some .MEDIUM
  else if s = "Low" then some .LOW
  else none

/-- Modelled from the spec: §4.1 of the specification — the structured
inference client validates enum fields against their closed sets, and content
with an invalid enum value fails to parse into the shape (`MalformedOutput`,
an exception raised inside `run_sync`).  The field types themselves are source
(`RoutingSlip`, router.py lines 22-25); the validation machinery is the
external pydantic library, which is not under src/. -/
def validateRoutingSlip (raw : RawRoutingSlip) : Option RoutingSlip :=
  match TicketCategory.fromValue raw.category, UrgencyLevel.fromValue raw.urgency with
  | some c, some u => some { category := c, urgency := u, summary := raw.summary }
  | _, _ => none

/-- `run_router` (router.py lines 63-93): call the service on the ticket's
prompt; return the validated slip, or `None` on a rate limit, on any other
exception, or when validation of the returned content fails (the pydantic
validation error is an exception inside `run_sync`, caught by the blanket
`except Exception` branch, lines 88-93). -/
def run_router (routerSvc : Ticket → RouterServiceResponse) (ticket : Ticket) :
    Option RoutingSlip :=
  match routerSvc ticket with
  | .output raw =>
    match validateRoutingSlip raw with
    | some slip => some slip
    | none => none
  | .resourceExhausted => none
  | .otherError _ => none

/-- The `router_output` entry of a result envelope (main.py lines 58-62):
either the dict `routing_slip.model_dump(mode='json')` — category and urgency
serialized to their `.value` strings — or the string `"ROUTING FAILED"`. -/
inductive RouterOutput
  | slip (category : String) (urgency : String) (summary : String)
  | failed
deriving DecidableEq

/-- `model_dump(mode='json')` of a `RoutingSlip` (main.py line 60): enum
members serialize to their values. -/
def RoutingSlip.model_dump (s : RoutingSlip) : RouterOutput :=
  .slip s.category.value s.urgency.value s.summary

/-- A result envelope (main.py lines 58-64).  `solver_output := none` embeds
the Python `None` stored when routing failed. -/
structure ResultRecord where
  original_ticket : Ticket
  router_output : RouterOutput
  solver_output : Option SolverOutput
  processing_time_seconds : Option ℚ
deriving DecidableEq

/-- Which schema an inference request targets. -/
inductive RequestShape
  | routing
  | solving (solver_name : String)
deriving DecidableEq

/-- One outbound inference request together with the ticket payload embedded
in its prompt (router.py lines 66-75, solvers.py line 236). -/
structure InferenceRequest where
  shape : RequestShape
  payload : Ticket
deriving DecidableEq

/-- The envelope plus the trace of inference requests issued for one ticket. -/
structure TicketOutcome where
  record : ResultRecord
  requests : List InferenceRequest
deriving DecidableEq

/-- The per-ticket body of the batch loop (main.py lines 43-65): sanitize,
route, solve when routing succeeded, build the envelope.  `clock` supplies the
measured wall-clock duration (`time.time() - start_time`). -/
def processTicket (routerSvc : Ticket → RouterServiceResponse)
    (solverSvc : Ticket → RoutingSlip → Option SolverResultObj)
    (clock : Ticket → ℚ) (ticket : Ticket) : TicketOutcome :=
  match run_router routerSvc (sanitize ticket) with
  | some slip =>
    { record :=
        { original_ticket := ticket
          router_output := slip.model_dump
          solver_output := some (route_to_solver solverSvc (sanitize ticket) slip)
          processing_time_seconds := some (clock ticket) }
      requests :=
        [{ shape := .routing, payload := sanitize ticket },
         { shape := .solving (solverName slip.category), payload := sanitize ticket }] }
  | none =>
    { record :=
        { original_ticket := ticket
          router_output := .failed
          solver_output := none
          processing_time_seconds := some (clock ticket) }
      requests := [{ shape := .routing, payload := sanitize ticket }] }

/-- `create_batches` (main.py lines 17-18):
`[data[i:i + size] for i in range(0, len(data), size)]`.  A zero `size` makes
the Python `range` raise; the claims only concern positive sizes, and the
embedding returns `[]` there. -/
def create_batches (data : List Ticket) (size : ℕ) : List (List Ticket) :=
  if _h : size = 0 ∨ data = [] then []
  else data.take size :: create_batches (data.drop size) size
termination_by data.length
decreasing_by
  simp only [List.length_drop]
  push_neg at _h
  exact Nat.sub_lt (List.length_pos.mpr _h.2) (Nat.pos_of_ne_zero _h.1)

/-- The outcomes of processing every ticket of every batch in order
(main.py lines 40-65: the nested `for` loops append to `all_results`). -/
def pipelineOutcomes (routerSvc : Ticket → RouterServiceResponse)
    (solverSvc : Ticket → RoutingSlip → Option SolverResultObj)
    (clock : Ticket → ℚ) (tickets : List Ticket) (batch_size : ℕ) : List TicketOutcome :=
  ((create_batches tickets batch_size).flatten).map (processTicket routerSvc solverSvc clock)

/-- The batch pipeline's observable output: the ordered envelope list
(`all_results`) and the trace of all inference requests issued. -/
def runPipeline (routerSvc : Ticket → RouterServiceResponse)
    (solverSvc : Ticket → RoutingSlip → Option SolverResultObj)
    (clock : Ticket → ℚ) (tickets : List Ticket) (batch_size : ℕ) :
    List ResultRecord × List InferenceRequest :=
  ((pipelineOutcomes routerSvc solverSvc clock tickets batch_size).map TicketOutcome.record,
   ((pipelineOutcomes routerSvc solverSvc clock tickets batch_size).map
      TicketOutcome.requests).flatten)

/-- The exceptions `calculate_metrics` can raise (evaluation.py): an
`AttributeError` from calling `.get` on a non-dict, or a
`statistics.StatisticsError` from `statistics.mean`. -/
inductive PyError
  | attributeError (msg : String)
  | statisticsError (msg : String)
deriving DecidableEq

/-- `SolverEvaluationScore` pydantic model, evaluation.py lines 11-14. -/
structure SolverEvaluationScore where
  relevance : Int
  clarity : Int
  actionability : Int
deriving DecidableEq

/-- The six counters of the metrics loop (evaluation.py lines 42-46). -/
structure RouterCounters where
  correctly_routed : ℕ
  routing_attempts : ℕ
  correctly_urgent : ℕ
  urgency_attempts : ℕ
  correctly_assigned_team : ℕ
  team_assignment_attempts : ℕ
deriving DecidableEq

/-- All counters start at 0 (evaluation.py lines 42-46). -/
def RouterCounters.init : RouterCounters :=
  { correctly_routed := 0, routing_attempts := 0, correctly_urgent := 0,
    urgency_attempts := 0, correctly_assigned_team := 0, team_assignment_attempts := 0 }

/-- Python `str.lower()`: lowercase character by character.  (`String.toLower`
is extensionally the same map but its `mapAux` does not kernel-reduce, so the
embedding maps over the character list directly; on the ASCII enum values and
ground-truth labels involved the two agree with CPython.) -/
def pyLower (s : String) : String := String.mk (s.data.map Char.toLower)

/-- The guarded attempt/match update shared by the three accuracy blocks
(evaluation.py lines 51-60 and 66-71): when the ground-truth value is present
and truthy, count an attempt, and a match when the lowercased strings agree;
otherwise leave both counters alone. -/
def attemptStep (gt : Option String) (predicted : String) (attempts matched : ℕ) : ℕ × ℕ :=
  match gt with
  | none => (attempts, matched)
  | some g =>
    if g = "" then (attempts, matched)
    else (attempts + 1, if pyLower g = pyLower predicted then matched + 1 else matched)

/-- The router-accuracy block of the loop body (evaluation.py lines 49-60):
skipped entirely when `router_output` is the `"ROUTING FAILED"` string;
otherwise the category and urgency counter pairs update independently from the
dumped slip's `category` and `urgency` entries. -/
def stepRouter (acc : RouterCounters) (r : ResultRecord) : RouterCounters :=
  match r.router_output with
  | .failed => acc
  | .slip cat urg _ =>
    { acc with
      routing_attempts :=
        (attemptStep r.original_ticket.ground_truth_category cat
          acc.routing_attempts acc.correctly_routed).1
      correctly_routed :=
        (attemptStep r.original_ticket.ground_truth_category cat
          acc.routing_attempts acc.correctly_routed).2
      urgency_attempts :=
        (attemptStep r.original_ticket.ground_truth_urgency urg
          acc.urgency_attempts acc.correctly_urgent).1
      correctly_urgent :=
        (attemptStep r.original_ticket.ground_truth_urgency urg
          acc.urgency_attempts acc.correctly_urgent).2 }

/-- `solver_output.get("data", {}).get("assigned_team", "")` (evaluation.py
line 69): on a dumped solver model the key is present and holds the team's
serialized value; on the failure branch `data` is a plain string and `.get`
raises `AttributeError`. -/
def dataAssignedTeam : SolverData → Except PyError String
  | .obj d => .ok d.assigned_team.value
  | .msg _ => .error (.attributeError "str object has no attribute get")

/-- The team-accuracy block of the loop body (evaluation.py lines 63-71).
`r.get("solver_output", {})` yields the stored value even when that value is
`None`, so the subsequent `.get("status")` raises `AttributeError` on an
envelope whose routing failed. -/
def stepTeam (acc : RouterCounters) (r : ResultRecord) : Except PyError RouterCounters :=
  match r.solver_output with
  | none => .error (.attributeError "NoneType object has no attribute get")
  | some so =>
    if so.status = "SUCCESS" then
      match r.original_ticket.ground_truth_team with
      | none => .ok acc
      | some g =>
        if g = "" then .ok acc
        else
          match dataAssignedTeam so.data with
          | .error e => .error e
          | .ok ai_team =>
            .ok { acc with
              team_assignment_attempts := acc.team_assignment_attempts + 1
              correctly_assigned_team :=
                acc.correctly_assigned_team +
                  (if pyLower g = pyLower ai_team then 1 else 0) }
  else .ok acc

/-- One iteration of the loop at evaluation.py lines 48-71. -/
def stepCounters (acc : RouterCounters) (r : ResultRecord) : Except PyError RouterCounters :=
  stepTeam (stepRouter acc r) r

/-- The whole loop at evaluation.py lines 48-71, stopping at the first raised
exception. -/
def foldCounters : RouterCounters → List ResultRecord → Except PyError RouterCounters
  | acc, [] => .ok acc
  | acc, r :: rs =>
    match stepCounters acc r with
    | .error e => .error e
    | .ok acc2 => foldCounters acc2 rs

/-- `r.get("solver_output", {}).get("status") == "SUCCESS"` (evaluation.py
lines 78 and 101): raises on a stored `None`. -/
def solverStatusSuccess (r : ResultRecord) : Except PyError Bool :=
  match r.solver_output with
  | none => .error (.attributeError "NoneType object has no attribute get")
  | some so => .ok (so.status = "SUCCESS")

/-- `successful_solves` count (evaluation.py line 78), left to right. -/
def countSuccessful : List ResultRecord → Except PyError ℕ
  | [] => .ok 0
  | r :: rs =>
    match solverStatusSuccess r with
    | .error e => .error e
    | .ok b =>
      match countSuccessful rs with
      | .error e => .error e
      | .ok n => .ok ((if b then 1 else 0) + n)

/-- The `successful_solves` list comprehension (evaluation.py line 101). -/
def successFilter : List ResultRecord → Except PyError (List ResultRecord)
  | [] => .ok []
  | r :: rs =>
    match solverStatusSuccess r with
    | .error e => .error e
    | .ok b =>
      match successFilter rs with
      | .error e => .error e
      | .ok l => .ok (if b then r :: l else l)

/-- The judging loop (evaluation.py lines 103-110): call the judge on
`original_ticket` and `solver_output` of each filtered envelope and keep the
scores of the calls that returned one — a judge returning `None`
(`run_solver_evaluator`, lines 22-32, catches every exception) is skipped.
The three per-criterion lists always grow together, so a single score list
embeds them. -/
def collectScores (judge : Ticket → Option SolverOutput → Option SolverEvaluationScore) :
    List ResultRecord → List SolverEvaluationScore
  | [] => []
  | r :: rs =>
    match judge r.original_ticket r.solver_output with
    | some s => s :: collectScores judge rs
    | none => collectScores judge rs

/-- `statistics.mean` (evaluation.py lines 115-117): raises on an empty list,
returns the arithmetic mean otherwise. -/
def pymean (l : List ℚ) : Except PyError ℚ :=
  if l = [] then .error (.statisticsError "mean requires at least one data point")
  else .ok (l.sum / l.length)

/-- `total_processing_time` (evaluation.py line 40): missing keys add 0. -/
def totalProcessingTime (results : List ResultRecord) : ℚ :=
  (results.map (fun r => r.processing_time_seconds.getD 0)).sum

/-- `average_processing_time` (evaluation.py line 41). -/
def averageProcessingTime (results : List ResultRecord) : ℚ :=
  if 0 < results.length then totalProcessingTime results / results.length else 0

/-- The guarded percentage `(num / den) * 100 if den > 0 else 0` used for all
four rates (evaluation.py lines 74-79). -/
def pct (num den : ℕ) : ℚ :=
  if 0 < den then ((num : ℚ) / den) * 100 else 0

/-- The optional `llm_as_judge_metrics` block (evaluation.py lines 113-118);
the formatted score strings are embedded as their numeric averages. -/
structure JudgeMetrics where
  evaluations_performed : ℕ
  avg_relevance_score : ℚ
  avg_clarity_score : ℚ
  avg_actionability_score : ℚ
deriving DecidableEq

/-- The metrics dict built at evaluation.py lines 81-95: each formatted
percentage-with-counts string is embedded as its numeric components. -/
structure MetricsSnapshot where
  total_tickets_processed : ℕ
  average_processing_time_seconds : ℚ
  correctly_routed : ℕ
  routing_attempts : ℕ
  routing_accuracy_percent : ℚ
  correctly_urgent : ℕ
  urgency_attempts : ℕ
  urgency_accuracy_percent : ℚ
  solver_success_rate_percent : ℚ
  correctly_assigned_team : ℕ
  team_assignment_attempts : ℕ
  team_assignment_accuracy_percent : ℚ
  llm_as_judge_metrics : Option JudgeMetrics
deriving DecidableEq

/-- What `calculate_metrics` returns when it does not raise: the empty dict
(line 37) or a populated snapshot. -/
inductive MetricsResult
  | empty
  | snapshot (m : MetricsSnapshot)
deriving DecidableEq

/-- The snapshot of evaluation.py lines 81-95 before the optional judge pass. -/
def baseSnapshot (results : List ResultRecord) (c : RouterCounters)
    (successful_solves : ℕ) : MetricsSnapshot :=
  { total_tickets_processed := results.length
    average_processing_time_seconds := averageProcessingTime results
    correctly_routed := c.correctly_routed
    routing_attempts := c.routing_attempts
    routing_accuracy_percent := pct c.correctly_routed c.routing_attempts
    correctly_urgent := c.correctly_urgent
    urgency_attempts := c.urgency_attempts
    urgency_accuracy_percent := pct c.correctly_urgent c.urgency_attempts
    solver_success_rate_percent := pct successful_solves results.length
    correctly_assigned_team := c.correctly_assigned_team
    team_assignment_attempts := c.team_assignment_attempts
    team_assignment_accuracy_percent :=
      pct c.correctly_assigned_team c.team_assignment_attempts
    llm_as_judge_metrics := none }

/-- `calculate_metrics` (evaluation.py lines 34-120).  The judge oracle stands
for `run_solver_evaluator`; `evaluate_with_llm` mirrors the flag.  Raised
exceptions surface as `Except.error`; the inter-judgment sleep has no
observable effect on the result. -/
def calculate_metrics (judge : Ticket → Option SolverOutput → Option SolverEvaluationScore)
    (results : List ResultRecord) (evaluate_with_llm : Bool) :
    Except PyError MetricsResult :=
  if results.length = 0 then .ok .empty
  else
    match foldCounters RouterCounters.init results with
    | .error e => .error e
    | .ok c =>
      match countSuccessful results with
      | .error e => .error e
      | .ok successful_solves =>
        if evaluate_with_llm then
          match successFilter results with
          | .error e => .error e
          | .ok succ =>
            if succ = [] then .ok (.snapshot (baseSnapshot results c successful_solves))
            else
              match pymean ((collectScores judge succ).map (fun s => (s.relevance : ℚ))) with
              | .error e => .error e
              | .ok avg_rel =>
                match pymean ((collectScores judge succ).map (fun s => (s.clarity : ℚ))) with
                | .error e => .error e
                | .ok avg_cla =>
                  match pymean
                      ((collectScores judge succ).map (fun s => (s.actionability : ℚ))) with
                  | .error e => .error e
                  | .ok avg_act =>
                    .ok (.snapshot
                      { baseSnapshot results c successful_solves with
                        llm_as_judge_metrics := some
                          { evaluations_performed := (collectScores judge succ).length
                            avg_relevance_score := avg_rel
                            avg_clarity_score := avg_cla
                            avg_actionability_score := avg_act } })
        else .ok (.snapshot (baseSnapshot results c successful_solves))

/-- The average-latency figure a metrics result reports, when it reports one. -/
def reportedAverageLatency : Except PyError MetricsResult → Option ℚ
  | .ok (.snapshot m) => some m.average_processing_time_seconds
  | _ => none

/-- Project a successfully computed populated snapshot. -/
def snapshotOf : Except PyError MetricsResult → Option MetricsSnapshot
  | .ok (.snapshot m) => some m
  | _ => none

/-- A concrete ticket with no optional fields populated. -/
def tEx : Ticket :=
  { ticket_id := some "TICKET-1", customer_tier := none, subject := none, message := none,
    previous_tickets := none, monthly_revenue := none, account_age_days := none,
    ground_truth_category := none, ground_truth_urgency := none, ground_truth_team := none }

/-- A concrete successful bug-solver result. -/
def bugEx : BugReport :=
  { title := "t", reproduction_steps := [], severity := "High", assigned_team := .BACKEND }

/-- A judge oracle whose every call fails (`run_solver_evaluator` returned
`None`, evaluation.py lines 30-32). -/
def judgeNone : Ticket → Option SolverOutput → Option SolverEvaluationScore :=
  fun _ _ => none

/-- The envelope main.py line 62 records when routing fails:
`router_output = "ROUTING FAILED"`, `solver_output = None`. -/
def failedRoutingEnvelope : ResultRecord :=
  { original_ticket := tEx, router_output := .failed, solver_output := none,
    processing_time_seconds := some 1 }

/-- An envelope for a ticket that routed and solved successfully. -/
def successEnvelope : ResultRecord :=
  { original_ticket := tEx, router_output := .slip "BUGS" "High" "s",
    solver_output := some (process_solver_output "BugSolver" (some (.bug bugEx))),
    processing_time_seconds := some 2 }

/-- A raw routing response whose category is outside the enumeration. -/
def rawBad : RawRoutingSlip := { category := "FROBNICATE", urgency := "High", summary := "s" }

/-- A raw routing response with valid enum values. -/
def rawBugs : RawRoutingSlip := { category := "BUGS", urgency := "High", summary := "s" }

/-- A router oracle answering the invalid response every time. -/
def routerSvcBad : Ticket → RouterServiceResponse := fun _ => .output rawBad

/-- A router oracle answering the valid response every time. -/
def routerSvcBugs : Ticket → RouterServiceResponse := fun _ => .output rawBugs

/-- A solver oracle that always produces the sample bug report. -/
def solverSvcEx : Ticket → RoutingSlip → Option SolverResultObj := fun _ _ => some (.bug bugEx)

/-- A clock oracle reporting one second per ticket. -/
def clockEx : Ticket → ℚ := fun _ => 1

/-- Python truthiness of an optional string field: present and non-empty. -/
def truthy : Option String → Bool
  | none => false
  | some s => if s = "" then false else true

/-- `r.get("router_output") != "ROUTING FAILED"` (evaluation.py line 50). -/
def routerSucceeded (r : ResultRecord) : Bool :=
  match r.router_output with
  | .failed => false
  | .slip _ _ _ => true

/-- Envelopes that enter the routing-accuracy denominator: routing succeeded
and a (truthy) ground-truth category is present. -/
def catAttempt (r : ResultRecord) : Bool :=
  routerSucceeded r && truthy r.original_ticket.ground_truth_category

/-- Envelopes that enter the urgency-accuracy denominator. -/
def urgAttempt (r : ResultRecord) : Bool :=
  routerSucceeded r && truthy r.original_ticket.ground_truth_urgency

/-- Collapse a present-but-empty ground-truth string to an absent one. -/
def blankFalsy : Option String → Option String
  | none => none
  | some s => if s = "" then none else some s

/-- Apply `blankFalsy` to the three ground-truth fields of a ticket. -/
def blankTicket (t : Ticket) : Ticket :=
  { t with
    ground_truth_category := blankFalsy t.ground_truth_category
    ground_truth_urgency := blankFalsy t.ground_truth_urgency
    ground_truth_team := blankFalsy t.ground_truth_team }

/-- Apply `blankTicket` to the retained original ticket of an envelope. -/
def blankRecord (r : ResultRecord) : ResultRecord :=
  { r with original_ticket := blankTicket r.original_ticket }

/-- An envelope carrying a ground-truth category `g` and a routed category
string `cat`, with a failed solve so only the router counters move. -/
def mkCatEnv (g cat : String) : ResultRecord :=
  { original_ticket := { tEx with ground_truth_category := some g }
    router_output := .slip cat "High" "s"
    solver_output := some (process_solver_output "BugSolver" none)
    processing_time_seconds := some 1 }

/-- An envelope carrying a ground-truth urgency `g` and a routed urgency
string `urg`. -/
def mkUrgEnv (g urg : String) : ResultRecord :=
  { original_ticket := { tEx with ground_truth_urgency := some g }
    router_output := .slip "BUGS" urg "s"
    solver_output := some (process_solver_output "BugSolver" none)
    processing_time_seconds := some 1 }

/-- An envelope carrying a ground-truth team `g` and a successful solve whose
output object is `d`. -/
def mkTeamEnv (g : String) (d : SolverResultObj) : ResultRecord :=
  { original_ticket := { tEx with ground_truth_team := some g }
    router_output := .slip "BUGS" "High" "s"
    solver_output := some (process_solver_output "BugSolver" (some d))
    processing_time_seconds := some 1 }

/-- The snapshot `calculate_metrics` yields on `[successEnvelope]`. -/
def snapEx : MetricsSnapshot :=
  { total_tickets_processed := 1, average_processing_time_seconds := 2,
    correctly_routed := 0, routing_attempts := 0, routing_accuracy_percent := 0,
    correctly_urgent := 0, urgency_attempts := 0, urgency_accuracy_percent := 0,
    solver_success_rate_percent := 100, correctly_assigned_team := 0,
    team_assignment_attempts := 0, team_assignment_accuracy_percent := 0,
    llm_as_judge_metrics := none }

/-- The snapshot `calculate_metrics` yields on `[mkCatEnv "bugs" "BUGS"]`. -/
def snapCatEx : MetricsSnapshot :=
  { total_tickets_processed := 1, average_processing_time_seconds := 1,
    correctly_routed := 1, routing_attempts := 1, routing_accuracy_percent := 100,
    correctly_urgent := 0, urgency_attempts := 0, urgency_accuracy_percent := 0,
    solver_success_rate_percent := 0, correctly_assigned_team := 0,
    team_assignment_attempts := 0, team_assignment_accuracy_percent := 0,
    llm_as_judge_metrics := none }

/-- Claim C1: the spec promises `calculate_metrics` never raises — missing or
failed fields contribute zero — but on any envelope list containing a
routing-failure envelope (`solver_output` stored as `None`, exactly what
main.py line 62 records) the code raises `AttributeError`:
`r.get("solver_output", {})` returns the stored `None`, and `.get("status")`
on `None` raises.  This theorem evaluates the embedded code at that failing
input. -/
theorem calculate_metrics_raises_on_null_solver_output :
    calculate_metrics judgeNone [failedRoutingEnvelope] false =
      .error (.attributeError "NoneType object has no attribute get") := by
  rfl

/-- Claim C2: the spec says the solver success rate is computed with the total
ticket count as denominator "including envelopes whose routing failed", but a
list actually containing a routing-failure envelope makes `calculate_metrics`
raise `AttributeError` before any rate is produced (same slip as C1: the
stored `None` defeats the `.get` default).  Evaluated at a two-envelope list
with one success and one routing failure, where the claim expects a 50% rate. -/
theorem solver_success_rate_raises_on_routing_failure :
    calculate_metrics judgeNone [successEnvelope, failedRoutingEnvelope] false =
      .error (.attributeError "NoneType object has no attribute get") := by
  rfl

/-- Claim C3: the spec says judgment failures are skipped and never abort, but
when every judgment call for the successful solves fails, the three score
lists stay empty while `successful_solves` is non-empty, and
`statistics.mean([])` raises `StatisticsError` (evaluation.py line 115).
Evaluated at a one-success list with an always-failing judge. -/
theorem judge_all_failures_raises_statistics_error :
    calculate_metrics judgeNone [successEnvelope] true =
      .error (.statisticsError "mean requires at least one data point") := by
  rfl

/-- Claim C10: sanitization pops the ground-truth keys only from a copy
(main.py line 48), so the envelope's `original_ticket` is the input ticket
itself, with all three ground-truth fields intact. -/
theorem original_ticket_keeps_ground_truth
    (routerSvc : Ticket → RouterServiceResponse)
    (solverSvc : Ticket → RoutingSlip → Option SolverResultObj)
    (clock : Ticket → ℚ) (t : Ticket) :
    (processTicket routerSvc solverSvc clock t).record.original_ticket = t ∧
    (processTicket routerSvc solverSvc clock t).record.original_ticket.ground_truth_category
      = t.ground_truth_category ∧
    (processTicket routerSvc solverSvc clock t).record.original_ticket.ground_truth_urgency
      = t.ground_truth_urgency ∧
    (processTicket routerSvc solverSvc clock t).record.original_ticket.ground_truth_team
      = t.ground_truth_team := by
  unfold processTicket
  cases run_router routerSvc (sanitize t) <;> exact ⟨rfl, rfl, rfl, rfl⟩

/-- Concatenating the fixed-size batches gives back the input list, for any
positive batch size (main.py line 18). -/
theorem create_batches_flatten (size : ℕ) (h : 0 < size) (data : List Ticket) :
    (create_batches data size).flatten = data := by
  suffices H : ∀ n (data : List Ticket), data.length = n →
      (create_batches data size).flatten = data from H data.length data rfl
  intro n
  induction n using Nat.strong_induction_on with
  | _ n ih =>
    intro data hn
    rw [create_batches]
    by_cases hz : size = 0 ∨ data = []
    · rw [dif_pos hz]
      rcases hz with hz | hz
      · omega
      · simp [hz]
    · rw [dif_neg hz]
      push_neg at hz
      have hlen : (data.drop size).length < n := by
        subst hn
        simp only [List.length_drop]
        exact Nat.sub_lt (List.length_pos.mpr hz.2) h
      simp only [List.flatten_cons]
      rw [ih _ hlen _ rfl]
      exact List.take_append_drop size data

/-- The envelope built for a ticket stores that ticket, ground truth included. -/
theorem processTicket_original (routerSvc : Ticket → RouterServiceResponse)
    (solverSvc : Ticket → RoutingSlip → Option SolverResultObj)
    (clock : Ticket → ℚ) (t : Ticket) :
    (processTicket routerSvc solverSvc clock t).record.original_ticket = t := by
  unfold processTicket
  cases run_router routerSvc (sanitize t) <;> rfl

/-- Every inference request issued while processing a ticket carries the
sanitized copy of that ticket as its payload. -/
theorem processTicket_requests_payload (routerSvc : Ticket → RouterServiceResponse)
    (solverSvc : Ticket → RoutingSlip → Option SolverResultObj)
    (clock : Ticket → ℚ) (t : Ticket) :
    ∀ req ∈ (processTicket routerSvc solverSvc clock t).requests,
      req.payload = sanitize t := by
  unfold processTicket
  cases run_router routerSvc (sanitize t) with
  | none =>
    intro req hreq
    simp only [List.mem_singleton] at hreq
    subst hreq
    rfl
  | some slip =>
    intro req hreq
    simp only [List.mem_cons, List.not_mem_nil, or_false] at hreq
    rcases hreq with hreq | hreq <;> subst hreq <;> rfl

/-- Claim C7: for every ticket list and positive batch size, the pipeline
produces exactly one envelope per ticket, in input order — the concatenation
of the batches is the input list — and every routing and solving inference
request carries the sanitized copy of its ticket (ground-truth fields
removed) as payload. -/
theorem pipeline_one_envelope_per_ticket_sanitized_requests
    (routerSvc : Ticket → RouterServiceResponse)
    (solverSvc : Ticket → RoutingSlip → Option SolverResultObj)
    (clock : Ticket → ℚ) (tickets : List Ticket) (size : ℕ) (h : 0 < size) :
    (create_batches tickets size).flatten = tickets ∧
    (runPipeline routerSvc solverSvc clock tickets size).1.length = tickets.length ∧
    (runPipeline routerSvc solverSvc clock tickets size).1.map ResultRecord.original_ticket
      = tickets ∧
    ∀ req ∈ (runPipeline routerSvc solverSvc clock tickets size).2,
      ∃ t ∈ tickets, req.payload = sanitize t := by
  have hflat := create_batches_flatten size h tickets
  refine ⟨hflat, ?_, ?_, ?_⟩
  · simp [runPipeline, pipelineOutcomes, hflat]
  · simp only [runPipeline, pipelineOutcomes, hflat, List.map_map]
    have hcg : ∀ t ∈ tickets,
        (ResultRecord.original_ticket ∘ TicketOutcome.record ∘
          processTicket routerSvc solverSvc clock) t = id t :=
      fun t _ => processTicket_original routerSvc solverSvc clock t
    rw [List.map_congr_left hcg, List.map_id]
  · intro req hreq
    simp only [runPipeline, pipelineOutcomes, hflat, List.mem_flatten, List.mem_map] at hreq
    obtain ⟨l, ⟨o, ⟨t, ht, hpt⟩, ho⟩, hl⟩ := hreq
    refine ⟨t, ht, ?_⟩
    apply processTicket_requests_payload routerSvc solverSvc clock t
    subst hpt
    rw [ho]
    exact hl

/-- A category string that matches no enum member fails the lookup. -/
theorem fromValue_none_of_not_member (s : String)
    (h : ∀ c : TicketCategory, TicketCategory.value c ≠ s) :
    TicketCategory.fromValue s = none := by
  have h1 : ¬ (s = "BUGS") := fun hs => h .BUGS hs.symm
  have h2 : ¬ (s = "QUERY") := fun hs => h .QUERY hs.symm
  have h3 : ¬ (s = "REQUEST") := fun hs => h .REQUEST hs.symm
  have h4 : ¬ (s = "SECURITY") := fun hs => h .SECURITY hs.symm
  have h5 : ¬ (s = "CORRECTNESS") := fun hs => h .CORRECTNESS hs.symm
  have h6 : ¬ (s = "MISCELLANEOUS") := fun hs => h .MISCELLANEOUS hs.symm
  simp [TicketCategory.fromValue, h1, h2, h3, h4, h5, h6]

/-- Claim C6: when the inference service returns a category string outside the
`TicketCategory` enumeration, validation fails, `run_router` returns the
failure sentinel (`None`), and the ticket's envelope records a routing failure
with a null solver outcome — the value is never coerced to `MISCELLANEOUS` or
any other member. -/
theorem invalid_category_is_routing_failure (raw : RawRoutingSlip)
    (h : ∀ c : TicketCategory, TicketCategory.value c ≠ raw.category)
    (solverSvc : Ticket → RoutingSlip → Option SolverResultObj)
    (clock : Ticket → ℚ) (t : Ticket) :
    run_router (fun _ => .output raw) (sanitize t) = none ∧
    (processTicket (fun _ => .output raw) solverSvc clock t).record.router_output
      = .failed ∧
    (processTicket (fun _ => .output raw) solverSvc clock t).record.solver_output
      = none := by
  have hv : validateRoutingSlip raw = none := by
    unfold validateRoutingSlip
    rw [fromValue_none_of_not_member raw.category h]
  have hr : run_router (fun _ => RouterServiceResponse.output raw) (sanitize t) = none := by
    simp only [run_router, hv]
  refine ⟨hr, ?_, ?_⟩
  · unfold processTicket
    rw [hr]
  · unfold processTicket
    rw [hr]

/-- Witness for C6: the service answers with category `"FROBNICATE"`, which is
no member value, and the envelope records the failure. -/
theorem invalid_category_is_routing_failure_witness :
    run_router (fun _ => .output rawBad) (sanitize tEx) = none ∧
    (processTicket (fun _ => .output rawBad) solverSvcEx clockEx tEx).record.router_output
      = .failed ∧
    (processTicket (fun _ => .output rawBad) solverSvcEx clockEx tEx).record.solver_output
      = none :=
  invalid_category_is_routing_failure rawBad
    (by intro c; cases c <;> decide) solverSvcEx clockEx tEx

/-- Witness for C7: two tickets, batch size three. -/
theorem pipeline_one_envelope_per_ticket_witness :
    (create_batches [tEx, tEx] 3).flatten = [tEx, tEx] ∧
    (runPipeline routerSvcBugs solverSvcEx clockEx [tEx, tEx] 3).1.length = [tEx, tEx].length ∧
    (runPipeline routerSvcBugs solverSvcEx clockEx [tEx, tEx] 3).1.map
      ResultRecord.original_ticket = [tEx, tEx] ∧
    ∀ req ∈ (runPipeline routerSvcBugs solverSvcEx clockEx [tEx, tEx] 3).2,
      ∃ t ∈ [tEx, tEx], req.payload = sanitize t :=
  pipeline_one_envelope_per_ticket_sanitized_requests
    routerSvcBugs solverSvcEx clockEx [tEx, tEx] 3 (by decide)

/-- First component of the guarded attempt/match update: the attempt counter
moves exactly when the ground-truth value is truthy. -/
theorem attemptStep_fst (gt : Option String) (p : String) (a m : ℕ) :
    (attemptStep gt p a m).1 = a + (if truthy gt then 1 else 0) := by
  cases gt with
  | none => simp [attemptStep, truthy]
  | some g =>
    by_cases hg : g = "" <;> simp [attemptStep, truthy, hg]

/-- The router-accuracy block moves the two attempt counters exactly on the
envelopes selected by `catAttempt` and `urgAttempt`. -/
theorem stepRouter_attempts (acc : RouterCounters) (r : ResultRecord) :
    (stepRouter acc r).routing_attempts
      = acc.routing_attempts + (if catAttempt r then 1 else 0) ∧
    (stepRouter acc r).urgency_attempts
      = acc.urgency_attempts + (if urgAttempt r then 1 else 0) := by
  unfold stepRouter catAttempt urgAttempt routerSucceeded
  cases hro : r.router_output with
  | failed => simp
  | slip cat urg s => simp [attemptStep_fst]

/-- The team-accuracy block never touches the router counters. -/
theorem stepTeam_preserves_router_counters (acc : RouterCounters) (r : ResultRecord)
    (acc2 : RouterCounters) (h : stepTeam acc r = .ok acc2) :
    acc2.routing_attempts = acc.routing_attempts ∧
    acc2.urgency_attempts = acc.urgency_attempts := by
  unfold stepTeam at h
  split at h
  · exact Except.noConfusion h
  · split at h
    · split at h
      · obtain rfl := Except.ok.inj h
        exact ⟨rfl, rfl⟩
      · split at h
        · obtain rfl := Except.ok.inj h
          exact ⟨rfl, rfl⟩
        · split at h
          · exact Except.noConfusion h
          · obtain rfl := Except.ok.inj h
            exact ⟨rfl, rfl⟩
    · obtain rfl := Except.ok.inj h
      exact ⟨rfl, rfl⟩

/-- Over the whole loop the attempt counters come out as the `countP` of the
selecting predicates, on top of their starting values. -/
theorem foldCounters_attempts (results : List ResultRecord) :
    ∀ (acc c : RouterCounters), foldCounters acc results = .ok c →
    c.routing_attempts = acc.routing_attempts + results.countP catAttempt ∧
    c.urgency_attempts = acc.urgency_attempts + results.countP urgAttempt := by
  induction results with
  | nil =>
    intro acc c h
    simp only [foldCounters] at h
    obtain rfl := Except.ok.inj h
    simp
  | cons r rs ih =>
    intro acc c h
    simp only [foldCounters] at h
    cases hs : stepCounters acc r with
    | error e =>
      rw [hs] at h
      exact Except.noConfusion h
    | ok acc2 =>
      rw [hs] at h
      obtain ⟨h1, h2⟩ := ih acc2 c h
      unfold stepCounters at hs
      obtain ⟨p1, p2⟩ := stepTeam_preserves_router_counters (stepRouter acc r) r acc2 hs
      obtain ⟨q1, q2⟩ := stepRouter_attempts acc r
      constructor
      · rw [h1, p1, q1, List.countP_cons]
        cases hb : catAttempt r <;> (simp [hb]; try omega)
      · rw [h2, p2, q2, List.countP_cons]
        cases hb : urgAttempt r <;> (simp [hb]; try omega)

/-- Inversion of a successful populated `calculate_metrics` run: the loop and
the success count completed, and the snapshot's fields are built from them. -/
theorem calculate_metrics_ok_snapshot
    (judge : Ticket → Option SolverOutput → Option SolverEvaluationScore)
    (results : List ResultRecord) (ewl : Bool) (m : MetricsSnapshot)
    (h : calculate_metrics judge results ewl = .ok (.snapshot m)) :
    results.length ≠ 0 ∧
    ∃ c n, foldCounters RouterCounters.init results = .ok c ∧
      countSuccessful results = .ok n ∧
      m.routing_attempts = c.routing_attempts ∧
      m.urgency_attempts = c.urgency_attempts ∧
      m.correctly_routed = c.correctly_routed ∧
      m.correctly_urgent = c.correctly_urgent ∧
      m.average_processing_time_seconds = averageProcessingTime results ∧
      m.solver_success_rate_percent = pct n results.length := by
  unfold calculate_metrics at h
  split at h
  next h0 => exact MetricsResult.noConfusion (Except.ok.inj h)
  next h0 =>
    refine ⟨h0, ?_⟩
    split at h
    next e heq => exact Except.noConfusion h
    next c hc =>
      split at h
      next e heq => exact Except.noConfusion h
      next n hn =>
        refine ⟨c, n, hc, hn, ?_⟩
        split at h
        next hew =>
          split at h
          next e heq => exact Except.noConfusion h
          next succ hf =>
            split at h
            next hse =>
              obtain rfl := (MetricsResult.snapshot.inj (Except.ok.inj h)).symm
              exact ⟨rfl, rfl, rfl, rfl, rfl, rfl⟩
            next hse =>
              split at h
              next e heq => exact Except.noConfusion h
              next a1 h1 =>
                split at h
                next e heq => exact Except.noConfusion h
                next a2 h2 =>
                  split at h
                  next e heq => exact Except.noConfusion h
                  next a3 h3 =>
                    obtain rfl := (MetricsResult.snapshot.inj (Except.ok.inj h)).symm
                    exact ⟨rfl, rfl, rfl, rfl, rfl, rfl⟩
        next hew =>
          obtain rfl := (MetricsResult.snapshot.inj (Except.ok.inj h)).symm
          exact ⟨rfl, rfl, rfl, rfl, rfl, rfl⟩

/-- Claim C4: the routing-accuracy denominator is the number of envelopes
where routing succeeded and a (truthy) ground-truth category is present, and
the urgency-accuracy denominator the analogue for urgency; the two counters
are tracked independently and neither is the total ticket count. -/
theorem accuracy_denominators
    (judge : Ticket → Option SolverOutput → Option SolverEvaluationScore)
    (results : List ResultRecord) (m : MetricsSnapshot)
    (h : calculate_metrics judge results false = .ok (.snapshot m)) :
    m.routing_attempts = results.countP catAttempt ∧
    m.urgency_attempts = results.countP urgAttempt := by
  obtain ⟨h0, c, n, hc, hn, hra, hua, _, _, _, _⟩ :=
    calculate_metrics_ok_snapshot judge results false m h
  obtain ⟨f1, f2⟩ := foldCounters_attempts results RouterCounters.init c hc
  constructor
  · rw [hra, f1]
    simp [RouterCounters.init]
  · rw [hua, f2]
    simp [RouterCounters.init]

/-- Witness for C4: one envelope with a ground-truth category and a matching
routed category; its denominators are 1 and 0, not the total count. -/
theorem accuracy_denominators_witness :
    snapCatEx.routing_attempts = ([mkCatEnv "bugs" "BUGS"].countP catAttempt) ∧
    snapCatEx.urgency_attempts = ([mkCatEnv "bugs" "BUGS"].countP urgAttempt) :=
  accuracy_denominators judgeNone [mkCatEnv "bugs" "BUGS"] snapCatEx (by
    simp [calculate_metrics, foldCounters, stepCounters, stepRouter, stepTeam, attemptStep,
      countSuccessful, solverStatusSuccess, mkCatEnv, process_solver_output, tEx, judgeNone,
      baseSnapshot, averageProcessingTime, totalProcessingTime, pct, snapCatEx,
      RouterCounters.init, dataAssignedTeam]
    decide)

/-- Claim C5 (amended): on the empty envelope list `calculate_metrics`
returns the empty snapshot — it reports no average latency at all — and
whenever it returns a populated snapshot the reported average latency is the
arithmetic mean of the per-ticket processing durations (an absent duration
counting as zero). -/
theorem average_latency_mean :
    (∀ (judge : Ticket → Option SolverOutput → Option SolverEvaluationScore) (ewl : Bool),
      calculate_metrics judge [] ewl = .ok .empty) ∧
    (∀ (judge : Ticket → Option SolverOutput → Option SolverEvaluationScore) (ewl : Bool)
      (results : List ResultRecord) (m : MetricsSnapshot),
      calculate_metrics judge results ewl = .ok (.snapshot m) →
      m.average_processing_time_seconds
        = totalProcessingTime results / results.length) := by
  constructor
  · intro judge ewl
    rfl
  · intro judge ewl results m h
    obtain ⟨h0, c, n, _, _, _, _, _, _, havg, _⟩ :=
      calculate_metrics_ok_snapshot judge results ewl m h
    rw [havg]
    unfold averageProcessingTime
    rw [if_pos (Nat.pos_of_ne_zero h0)]

/-- Counterexample for C5 as stated: on the empty list the code returns the
empty dict, so no average latency of zero — nothing at all — is reported. -/
theorem empty_list_reports_no_latency :
    calculate_metrics judgeNone [] false = .ok .empty ∧
    reportedAverageLatency (calculate_metrics judgeNone [] false) ≠ some 0 :=
  ⟨rfl, by decide⟩

/-- Witness for C5: the one-envelope list with duration 2 reports average 2. -/
theorem average_latency_mean_witness :
    snapEx.average_processing_time_seconds
      = totalProcessingTime [successEnvelope] / ([successEnvelope] : List ResultRecord).length :=
  average_latency_mean.2 judgeNone false [successEnvelope] snapEx (by
    simp [calculate_metrics, foldCounters, stepCounters, stepRouter, stepTeam, attemptStep,
      countSuccessful, solverStatusSuccess, successEnvelope, process_solver_output, bugEx, tEx,
      judgeNone, baseSnapshot, averageProcessingTime, totalProcessingTime, pct, snapEx,
      RouterCounters.init, dataAssignedTeam])

/-- Claim C8: all three ground-truth comparisons are case-insensitive — the
match counter moves exactly when the lowercased ground truth equals the
lowercased prediction, for category, urgency, and team alike. -/
theorem case_insensitive_comparisons :
    (∀ (g cat : String), g ≠ "" →
      (snapshotOf (calculate_metrics judgeNone [mkCatEnv g cat] false)).map
        (fun m => (m.routing_attempts, m.correctly_routed))
        = some (1, if pyLower g = pyLower cat then 1 else 0)) ∧
    (∀ (g urg : String), g ≠ "" →
      (snapshotOf (calculate_metrics judgeNone [mkUrgEnv g urg] false)).map
        (fun m => (m.urgency_attempts, m.correctly_urgent))
        = some (1, if pyLower g = pyLower urg then 1 else 0)) ∧
    (∀ (g : String) (d : SolverResultObj), g ≠ "" →
      (snapshotOf (calculate_metrics judgeNone [mkTeamEnv g d] false)).map
        (fun m => (m.team_assignment_attempts, m.correctly_assigned_team))
        = some (1, if pyLower g = pyLower d.assigned_team.value then 1 else 0)) := by
  refine ⟨?_, ?_, ?_⟩
  · intro g cat hg
    simp [calculate_metrics, foldCounters, stepCounters, stepRouter, stepTeam, attemptStep,
      countSuccessful, solverStatusSuccess, mkCatEnv, process_solver_output, tEx, judgeNone,
      baseSnapshot, snapshotOf, RouterCounters.init, dataAssignedTeam, hg]
  · intro g urg hg
    simp [calculate_metrics, foldCounters, stepCounters, stepRouter, stepTeam, attemptStep,
      countSuccessful, solverStatusSuccess, mkUrgEnv, process_solver_output, tEx, judgeNone,
      baseSnapshot, snapshotOf, RouterCounters.init, dataAssignedTeam, hg]
  · intro g d hg
    simp [calculate_metrics, foldCounters, stepCounters, stepRouter, stepTeam, attemptStep,
      countSuccessful, solverStatusSuccess, mkTeamEnv, process_solver_output, tEx, judgeNone,
      baseSnapshot, snapshotOf, RouterCounters.init, dataAssignedTeam, hg]

/-- Witness for C8: `"bugs"` matches `"BUGS"`, `"HIGH"` matches `"High"`, and
a ground truth of `"backend"` matches the solver's team value `"Backend"`. -/
theorem case_insensitive_comparisons_witness :
    (snapshotOf (calculate_metrics judgeNone [mkCatEnv "bugs" "BUGS"] false)).map
      (fun m => (m.routing_attempts, m.correctly_routed)) = some (1, 1) ∧
    (snapshotOf (calculate_metrics judgeNone [mkUrgEnv "HIGH" "High"] false)).map
      (fun m => (m.urgency_attempts, m.correctly_urgent)) = some (1, 1) ∧
    (snapshotOf (calculate_metrics judgeNone [mkTeamEnv "backend" (.bug bugEx)] false)).map
      (fun m => (m.team_assignment_attempts, m.correctly_assigned_team)) = some (1, 1) := by
  refine ⟨?_, ?_, ?_⟩
  · rw [case_insensitive_comparisons.1 "bugs" "BUGS" (by decide)]
    decide
  · rw [case_insensitive_comparisons.2.1 "HIGH" "High" (by decide)]
    decide
  · rw [case_insensitive_comparisons.2.2 "backend" (.bug bugEx) (by decide)]
    decide

/-- Blanking commutes with the guarded attempt/match update. -/
theorem attemptStep_blank (gt : Option String) (p : String) (a m : ℕ) :
    attemptStep (blankFalsy gt) p a m = attemptStep gt p a m := by
  cases gt with
  | none => rfl
  | some g => by_cases hg : g = "" <;> simp [blankFalsy, attemptStep, hg]

/-- Blanking the ground-truth fields leaves the router-accuracy block alone. -/
theorem stepRouter_blank (acc : RouterCounters) (r : ResultRecord) :
    stepRouter acc (blankRecord r) = stepRouter acc r := by
  unfold stepRouter
  cases hro : r.router_output with
  | failed => simp [blankRecord, blankTicket, hro]
  | slip cat urg s => simp [blankRecord, blankTicket, hro, attemptStep_blank]

/-- Blanking the ground-truth fields leaves the team-accuracy block alone. -/
theorem stepTeam_blank (acc : RouterCounters) (r : ResultRecord) :
    stepTeam acc (blankRecord r) = stepTeam acc r := by
  unfold stepTeam
  cases hso : r.solver_output with
  | none => simp [blankRecord, blankTicket, hso]
  | some so =>
    cases hgt : r.original_ticket.ground_truth_team with
    | none => simp [blankRecord, blankTicket, hso, hgt, blankFalsy]
    | some g =>
      by_cases hg : g = "" <;>
        simp [blankRecord, blankTicket, hso, hgt, blankFalsy, hg]

/-- Blanking the ground-truth fields leaves a whole loop iteration alone. -/
theorem stepCounters_blank (acc : RouterCounters) (r : ResultRecord) :
    stepCounters acc (blankRecord r) = stepCounters acc r := by
  unfold stepCounters
  rw [stepRouter_blank, stepTeam_blank]

/-- Blanking the ground-truth fields leaves the whole loop alone. -/
theorem foldCounters_blank (results : List ResultRecord) :
    ∀ acc, foldCounters acc (results.map blankRecord) = foldCounters acc results := by
  induction results with
  | nil => intro acc; rfl
  | cons r rs ih =>
    intro acc
    simp only [List.map_cons, foldCounters, stepCounters_blank]
    cases stepCounters acc r with
    | error e => rfl
    | ok acc2 => exact ih acc2

/-- Blanking does not touch the solver outcome, so the success count agrees. -/
theorem countSuccessful_blank (results : List ResultRecord) :
    countSuccessful (results.map blankRecord) = countSuccessful results := by
  induction results with
  | nil => rfl
  | cons r rs ih =>
    simp only [List.map_cons, countSuccessful]
    have hss : solverStatusSuccess (blankRecord r) = solverStatusSuccess r := rfl
    rw [hss, ih]

/-- Blanking does not touch lengths or durations, so the base snapshot agrees. -/
theorem baseSnapshot_blank (results : List ResultRecord) (c : RouterCounters) (n : ℕ) :
    baseSnapshot (results.map blankRecord) c n = baseSnapshot results c n := by
  unfold baseSnapshot averageProcessingTime totalProcessingTime
  simp [List.map_map, Function.comp_def, blankRecord, blankTicket]

/-- Claim C9: a ground-truth field that is present but falsy (the empty
string) is treated exactly like an absent one — mapping every envelope's
empty-string ground-truth fields to absent ones does not change the metrics at
all, and a single envelope whose ground-truth category, urgency, or team is
the empty string moves no counter (it is excluded from the denominator, not
counted as a failed match). -/
theorem falsy_ground_truth_like_absent
    (judge : Ticket → Option SolverOutput → Option SolverEvaluationScore)
    (results : List ResultRecord) :
    calculate_metrics judge (results.map blankRecord) false
      = calculate_metrics judge results false ∧
    (∀ acc, stepCounters acc (mkCatEnv "" "BUGS") = .ok acc) ∧
    (∀ acc, stepCounters acc (mkUrgEnv "" "High") = .ok acc) ∧
    (∀ acc (d : SolverResultObj), stepCounters acc (mkTeamEnv "" d) = .ok acc) := by
  refine ⟨?_, fun acc => rfl, fun acc => rfl, fun acc d => rfl⟩
  unfold calculate_metrics
  rw [List.length_map, foldCounters_blank results RouterCounters.init,
    countSuccessful_blank results]
  simp only [Bool.false_eq_true, if_false]
  simp only [baseSnapshot_blank]
